import Mathlib

/-!
Shallow embedding of the action-recording and test-code-generation engine of
`custom-playwright-mcp` (`src/index.ts`), together with theorems checking the
natural-language specification against it.

The embedding models:
* the `RecordedAction` record and the process-wide recording session state
  (`recordedActions`, `isRecording`, `recordingName`);
* `recordAction` (src/index.ts lines 33-40);
* the `playwright_record_start`, `playwright_record_stop` and
  `playwright_generate_test` tool handlers (lines 915-983);
* the generators `generatePlaywrightTest` (200-249), `generatePuppeteerTest`
  (251-295) and `generatePythonTest` (297-372).

JavaScript template-literal interpolation of a possibly-undefined field is
modelled by `fld`, which renders `none` as the string "undefined", exactly as
`${action.url}` does for a missing field.  File-system effects of the
generate handler are modelled by returning the `(path, contents)` pair that
`fs.writeFileSync` would receive, instead of performing the write.
-/

namespace PlaywrightMcp

/-- The `RecordedAction` interface (src/index.ts lines 16-26): a `type`
discriminant plus optional payload fields and a capture timestamp. -/
structure RecordedAction where
  type : String
  selector : Option String := none
  value : Option String := none
  url : Option String := none
  script : Option String := none
  key : Option String := none
  attr : Option String := none
  timestamp : Nat
  description : Option String := none
  deriving Repr, DecidableEq

/-- `Omit<RecordedAction, "timestamp">`: the payload `recordAction` receives
before the timestamp is assigned (src/index.ts line 33). -/
structure ActionInput where
  type : String
  selector : Option String := none
  value : Option String := none
  url : Option String := none
  script : Option String := none
  key : Option String := none
  attr : Option String := none
  description : Option String := none
  deriving Repr, DecidableEq

/-- Spreading an `ActionInput` together with a fresh timestamp, as in
`{ ...action, timestamp: Date.now() }` (src/index.ts lines 35-38). -/
def ActionInput.withTimestamp (a : ActionInput) (now : Nat) : RecordedAction :=
  { type := a.type, selector := a.selector, value := a.value, url := a.url,
    script := a.script, key := a.key, attr := a.attr,
    timestamp := now, description := a.description }

/-- The process-wide recording session state: the module-level variables
`recordedActions`, `isRecording` and `recordingName` (src/index.ts 28-30). -/
structure SessionState where
  recordedActions : List RecordedAction
  isRecording : Bool
  recordingName : String
  deriving Repr, DecidableEq

/-- `recordAction` (src/index.ts lines 33-40): appends the action with a fresh
timestamp when recording is active, otherwise does nothing.  `now` stands for
the value `Date.now()` returns at the call. -/
def recordAction (st : SessionState) (a : ActionInput) (now : Nat) : SessionState :=
  if st.isRecording then
    { st with recordedActions := st.recordedActions ++ [a.withTimestamp now] }
  else st

/-- The `playwright_record_start` handler (src/index.ts lines 915-928):
sets `isRecording = true`, stores the name, clears the log and returns the
status text. -/
def recordStart (_st : SessionState) (name : String) : SessionState × String :=
  ({ recordedActions := [], isRecording := true, recordingName := name },
   "Recording started: " ++ name ++ ". All subsequent actions will be recorded.")

/-- The `playwright_record_stop` handler (src/index.ts lines 930-940):
clears the `isRecording` flag, leaving log and name untouched, and reports
the number of recorded actions. -/
def recordStop (st : SessionState) : SessionState × String :=
  ({ st with isRecording := false },
   "Recording stopped. " ++ toString st.recordedActions.length ++
     " actions recorded. Use playwright_generate_test to create a test script.")

/-- The `framework` enum of `GenerateTestSchema` (src/index.ts line 119). -/
inductive Framework where
  | playwright
  | puppeteer
  | selenium
  deriving Repr, DecidableEq

/-- The `language` enum of `GenerateTestSchema` (src/index.ts line 120). -/
inductive Language where
  | typescript
  | javascript
  | python
  deriving Repr, DecidableEq

def Framework.str : Framework → String
  | .playwright => "playwright"
  | .puppeteer => "puppeteer"
  | .selenium => "selenium"

def Language.str : Language → String
  | .typescript => "typescript"
  | .javascript => "javascript"
  | .python => "python"

/-- JavaScript template-literal interpolation of a possibly-undefined string
field: `${x}` renders `undefined` as the text "undefined". -/
def fld (o : Option String) : String := o.getD "undefined"

/-- A single-quote character, as a string, for the quoted literals the
generators splice captured values into. -/
def sq : String := "\x27"

/-- The statement template of `generatePlaywrightTest`'s per-action `switch`
(src/index.ts lines 209-245): `some` statement for a mapped action kind,
`none` for a kind the switch has no case for. -/
def pwStmt (a : RecordedAction) : Option String :=
  match a.type with
  | "navigate" => some ("  await page.goto(" ++ sq ++ fld a.url ++ sq ++ ");\n")
  | "click" => some ("  await page.click(" ++ sq ++ fld a.selector ++ sq ++ ");\n")
  | "fill" => some ("  await page.fill(" ++ sq ++ fld a.selector ++ sq ++ ", " ++ sq ++ fld a.value ++ sq ++ ");\n")
  | "type" => some ("  await page.type(" ++ sq ++ fld a.selector ++ sq ++ ", " ++ sq ++ fld a.value ++ sq ++ ");\n")
  | "press" => some ("  await page.keyboard.press(" ++ sq ++ fld a.key ++ sq ++ ");\n")
  | "select" => some ("  await page.selectOption(" ++ sq ++ fld a.selector ++ sq ++ ", " ++ sq ++ fld a.value ++ sq ++ ");\n")
  | "hover" => some ("  await page.hover(" ++ sq ++ fld a.selector ++ sq ++ ");\n")
  | "check" => some ("  await page.check(" ++ sq ++ fld a.selector ++ sq ++ ");\n")
  | "uncheck" => some ("  await page.uncheck(" ++ sq ++ fld a.selector ++ sq ++ ");\n")
  | "waitForSelector" => some ("  await page.waitForSelector(" ++ sq ++ fld a.selector ++ sq ++ ");\n")
  | "screenshot" => some ("  await page.screenshot(\x7b path: " ++ sq ++ fld a.value ++ sq ++ " \x7d);\n")
  | _ => none

/-- `generatePlaywrightTest` (src/index.ts lines 200-249).  The source reads
the module-level `recordingName`; here it is passed explicitly.  The `for`
loop appending one statement per mapped action is rendered as a `filterMap`
followed by `String.join`. -/
def generatePlaywrightTest (recordingName : String) (actions : List RecordedAction)
    (language : Language) : String :=
  (if language = .typescript then
      "import \x7b test, expect \x7d from " ++ sq ++ "@playwright/test" ++ sq ++ ";\n\n"
    else
      "const \x7b test, expect \x7d = require(" ++ sq ++ "@playwright/test" ++ sq ++ ");\n\n") ++
  ("test(" ++ sq ++ (if recordingName = "" then "recorded test" else recordingName) ++ sq ++
    ", async (\x7b page \x7d) => \x7b\n") ++
  String.join (actions.filterMap pwStmt) ++
  "\x7d);\n"

/-- The statement template of `generatePuppeteerTest`'s per-action `switch`
(src/index.ts lines 262-290); note `fill` and `type` share one template and
`check`/`uncheck` have no case. -/
def pptStmt (a : RecordedAction) : Option String :=
  match a.type with
  | "navigate" => some ("  await page.goto(" ++ sq ++ fld a.url ++ sq ++ ");\n")
  | "click" => some ("  await page.click(" ++ sq ++ fld a.selector ++ sq ++ ");\n")
  | "fill" => some ("  await page.type(" ++ sq ++ fld a.selector ++ sq ++ ", " ++ sq ++ fld a.value ++ sq ++ ");\n")
  | "type" => some ("  await page.type(" ++ sq ++ fld a.selector ++ sq ++ ", " ++ sq ++ fld a.value ++ sq ++ ");\n")
  | "press" => some ("  await page.keyboard.press(" ++ sq ++ fld a.key ++ sq ++ ");\n")
  | "select" => some ("  await page.select(" ++ sq ++ fld a.selector ++ sq ++ ", " ++ sq ++ fld a.value ++ sq ++ ");\n")
  | "hover" => some ("  await page.hover(" ++ sq ++ fld a.selector ++ sq ++ ");\n")
  | "waitForSelector" => some ("  await page.waitForSelector(" ++ sq ++ fld a.selector ++ sq ++ ");\n")
  | "screenshot" => some ("  await page.screenshot(\x7b path: " ++ sq ++ fld a.value ++ sq ++ " \x7d);\n")
  | _ => none

/-- `generatePuppeteerTest` (src/index.ts lines 251-295). -/
def generatePuppeteerTest (actions : List RecordedAction) (language : Language) : String :=
  (if language = .typescript then
      "import puppeteer from " ++ sq ++ "puppeteer" ++ sq ++ ";\n\n"
    else
      "const puppeteer = require(" ++ sq ++ "puppeteer" ++ sq ++ ");\n\n") ++
  "(async () => \x7b\n  const browser = await puppeteer.launch();\n  const page = await browser.newPage();\n\n" ++
  String.join (actions.filterMap pptStmt) ++
  "\n  await browser.close();\n\x7d)();\n"

/-- The sanitisation `recordingName.replace(/[^a-zA-Z0-9]/g, "_")` used for
Python test identifiers (src/index.ts lines 300 and 345). -/
def sanitizeId (s : String) : String :=
  s.map (fun c => if c.isAlphanum then c else Char.ofNat 95)

/-- The Python test-function identifier: the sanitised session name, or
"recorded" when it is empty (the `|| "recorded"` fallback). -/
def pyTestName (recordingName : String) : String :=
  if sanitizeId recordingName = "" then "recorded" else sanitizeId recordingName

/-- The statement template of the Playwright branch of `generatePythonTest`
(src/index.ts lines 305-335). -/
def pyPwStmt (a : RecordedAction) : Option String :=
  match a.type with
  | "navigate" => some ("        page.goto(" ++ sq ++ fld a.url ++ sq ++ ")\n")
  | "click" => some ("        page.click(" ++ sq ++ fld a.selector ++ sq ++ ")\n")
  | "fill" => some ("        page.fill(" ++ sq ++ fld a.selector ++ sq ++ ", " ++ sq ++ fld a.value ++ sq ++ ")\n")
  | "type" => some ("        page.type(" ++ sq ++ fld a.selector ++ sq ++ ", " ++ sq ++ fld a.value ++ sq ++ ")\n")
  | "press" => some ("        page.keyboard.press(" ++ sq ++ fld a.key ++ sq ++ ")\n")
  | "select" => some ("        page.select_option(" ++ sq ++ fld a.selector ++ sq ++ ", " ++ sq ++ fld a.value ++ sq ++ ")\n")
  | "hover" => some ("        page.hover(" ++ sq ++ fld a.selector ++ sq ++ ")\n")
  | "waitForSelector" => some ("        page.wait_for_selector(" ++ sq ++ fld a.selector ++ sq ++ ")\n")
  | "screenshot" => some ("        page.screenshot(path=" ++ sq ++ fld a.value ++ sq ++ ")\n")
  | _ => none

/-- The statement template of the Selenium branch of `generatePythonTest`
(src/index.ts lines 348-367); only five templates exist, with `fill` and
`type` sharing one. -/
def pySelStmt (a : RecordedAction) : Option String :=
  match a.type with
  | "navigate" => some ("    driver.get(" ++ sq ++ fld a.url ++ sq ++ ")\n")
  | "click" => some ("    driver.find_element(By.CSS_SELECTOR, " ++ sq ++ fld a.selector ++ sq ++ ").click()\n")
  | "fill" => some ("    driver.find_element(By.CSS_SELECTOR, " ++ sq ++ fld a.selector ++ sq ++ ").send_keys(" ++ sq ++ fld a.value ++ sq ++ ")\n")
  | "type" => some ("    driver.find_element(By.CSS_SELECTOR, " ++ sq ++ fld a.selector ++ sq ++ ").send_keys(" ++ sq ++ fld a.value ++ sq ++ ")\n")
  | "waitForSelector" => some ("    WebDriverWait(driver, 10).until(EC.presence_of_element_located((By.CSS_SELECTOR, " ++ sq ++ fld a.selector ++ sq ++ ")))\n")
  | "screenshot" => some ("    driver.save_screenshot(" ++ sq ++ fld a.value ++ sq ++ ")\n")
  | _ => none

/-- `generatePythonTest` (src/index.ts lines 297-372).  The source declares
the parameter as `"playwright" | "selenium"`, but the handler passes the raw
three-valued framework through an unchecked cast, so at runtime the test on
line 298 sends every non-playwright framework (including "puppeteer") to the
Selenium branch; the embedding therefore takes the full `Framework`. -/
def generatePythonTest (recordingName : String) (actions : List RecordedAction)
    (framework : Framework) : String :=
  if framework = .playwright then
    "from playwright.sync_api import sync_playwright\n\n" ++
    ("def test_" ++ pyTestName recordingName ++ "():\n") ++
    "    with sync_playwright() as p:\n        browser = p.chromium.launch()\n        page = browser.new_page()\n\n" ++
    String.join (actions.filterMap pyPwStmt) ++
    "\n        browser.close()\n"
  else
    "from selenium import webdriver\nfrom selenium.webdriver.common.by import By\nfrom selenium.webdriver.support.ui import WebDriverWait\nfrom selenium.webdriver.support import expected_conditions as EC\n\n" ++
    ("def test_" ++ pyTestName recordingName ++ "():\n") ++
    "    driver = webdriver.Chrome()\n\n" ++
    String.join (actions.filterMap pySelStmt) ++
    "\n    driver.quit()\n"

/-- The framework/language dispatch of the `playwright_generate_test` handler
(src/index.ts lines 956-964): `testCode` starts as the empty string and is
only assigned by one of the three generator calls, so the Selenium framework
with a non-Python language leaves it empty. -/
def genCode (framework : Framework) (language : Language) (recordingName : String)
    (actions : List RecordedAction) : String :=
  if language = .python then generatePythonTest recordingName actions framework
  else if framework = .playwright then generatePlaywrightTest recordingName actions language
  else if framework = .puppeteer then generatePuppeteerTest actions language
  else ""

/-- The per-action statement template the dispatch of `genCode` uses for a
given framework/language pair; `none` for the Selenium framework with a
non-Python language, where no generator runs. -/
def stmtOf (framework : Framework) (language : Language) :
    RecordedAction → Option String :=
  if language = .python then
    (if framework = .playwright then pyPwStmt else pySelStmt)
  else if framework = .playwright then pwStmt
  else if framework = .puppeteer then pptStmt
  else fun _ => none

/-- The ordered list of action-statements `genCode` emits for a log. -/
def emitted (framework : Framework) (language : Language)
    (actions : List RecordedAction) : List String :=
  actions.filterMap (stmtOf framework language)

/-- Whether the action's kind has a statement template under the given
framework/language pair. -/
def hasTemplate (framework : Framework) (language : Language)
    (a : RecordedAction) : Bool :=
  (stmtOf framework language a).isSome

/-- The result of the `playwright_generate_test` handler: the text returned
to the caller, the error flag, and the `(path, contents)` pair handed to
`fs.writeFileSync` (`none` when no file is written). -/
structure GenResult where
  text : String
  isError : Bool
  written : Option (String × String)
  deriving Repr, DecidableEq

/-- The `playwright_generate_test` handler (src/index.ts lines 942-983).
`cwd` stands for `process.cwd()`; `path.join` is modelled as concatenation
with a slash.  An empty log returns the explanatory message and writes
nothing; otherwise the generated code is written to
`cwd/generated-tests/fileName` and the success report is returned. -/
def generateTest (st : SessionState) (framework : Framework) (language : Language)
    (fileName : String) (cwd : String) : GenResult :=
  if st.recordedActions.length = 0 then
    { text := "No actions recorded. Start recording with playwright_record_start first.",
      isError := false, written := none }
  else
    let testCode := genCode framework language st.recordingName st.recordedActions
    let filePath := cwd ++ "/generated-tests/" ++ fileName
    { text := "Test generated successfully!\nFile: " ++ (filePath ++
        ("\nFramework: " ++ (framework.str ++ ("\nLanguage: " ++ (language.str ++
        ("\nActions: " ++ (toString st.recordedActions.length ++ ("\n\n" ++ testCode)))))))),
      isError := false,
      written := some (filePath, testCode) }

/-- The captured strings `generatePlaywrightTest`'s template for the action's
kind splices into its statement, in template order (src/index.ts 209-245). -/
def pwFields (a : RecordedAction) : List String :=
  match a.type with
  | "navigate" => [fld a.url]
  | "click" => [fld a.selector]
  | "fill" => [fld a.selector, fld a.value]
  | "type" => [fld a.selector, fld a.value]
  | "press" => [fld a.key]
  | "select" => [fld a.selector, fld a.value]
  | "hover" => [fld a.selector]
  | "check" => [fld a.selector]
  | "uncheck" => [fld a.selector]
  | "waitForSelector" => [fld a.selector]
  | "screenshot" => [fld a.value]
  | _ => []

/-- The captured strings `generatePuppeteerTest`'s template splices into its
statement (src/index.ts 262-290). -/
def pptFields (a : RecordedAction) : List String :=
  match a.type with
  | "navigate" => [fld a.url]
  | "click" => [fld a.selector]
  | "fill" => [fld a.selector, fld a.value]
  | "type" => [fld a.selector, fld a.value]
  | "press" => [fld a.key]
  | "select" => [fld a.selector, fld a.value]
  | "hover" => [fld a.selector]
  | "waitForSelector" => [fld a.selector]
  | "screenshot" => [fld a.value]
  | _ => []

/-- The captured strings the Playwright branch of `generatePythonTest`
splices into its statement (src/index.ts 305-335). -/
def pyPwFields (a : RecordedAction) : List String :=
  match a.type with
  | "navigate" => [fld a.url]
  | "click" => [fld a.selector]
  | "fill" => [fld a.selector, fld a.value]
  | "type" => [fld a.selector, fld a.value]
  | "press" => [fld a.key]
  | "select" => [fld a.selector, fld a.value]
  | "hover" => [fld a.selector]
  | "waitForSelector" => [fld a.selector]
  | "screenshot" => [fld a.value]
  | _ => []

/-- The captured strings the Selenium branch of `generatePythonTest` splices
into its statement (src/index.ts 348-367). -/
def pySelFields (a : RecordedAction) : List String :=
  match a.type with
  | "navigate" => [fld a.url]
  | "click" => [fld a.selector]
  | "fill" => [fld a.selector, fld a.value]
  | "type" => [fld a.selector, fld a.value]
  | "waitForSelector" => [fld a.selector]
  | "screenshot" => [fld a.value]
  | _ => []

/-- The captured strings spliced into the statement `stmtOf` emits, under the
same dispatch as `stmtOf`. -/
def usedFields (framework : Framework) (language : Language)
    (a : RecordedAction) : List String :=
  if language = .python then
    (if framework = .playwright then pyPwFields a else pySelFields a)
  else if framework = .playwright then pwFields a
  else if framework = .puppeteer then pptFields a
  else []

/-- Sample recorded navigation, matching the round-trip scenario's first
action (`record(navigate, url="https://a.test")`). -/
def iNav : ActionInput := { type := "navigate", url := some "https://a.test" }

/-- Sample recorded click, matching the round-trip scenario's second action
(`record(click, selector="#go")`). -/
def iClick : ActionInput := { type := "click", selector := some "#go" }

/-- A recorded navigation action, for concrete instances. -/
def aNav : RecordedAction := { type := "navigate", url := some "https://a.test", timestamp := 1 }

/-- A recorded click action, for concrete instances. -/
def aClick : RecordedAction := { type := "click", selector := some "#go", timestamp := 2 }

/-- A recorded checkbox-check action: its kind has a Playwright template but
no Puppeteer one, so it exercises the silent-skip path. -/
def aCheck : RecordedAction := { type := "check", selector := some "#c", timestamp := 3 }

/-- A recorded click whose selector contains a single-quote character, for
the unescaped-interpolation claim. -/
def aQuote : RecordedAction := { type := "click", selector := some "a\x27b", timestamp := 4 }

/-! ## Helper lemmas -/

theorem length_filterMap_of_forall_isSome {α β : Type} (f : α → Option β) :
    ∀ l : List α, (∀ a ∈ l, (f a).isSome) → (l.filterMap f).length = l.length := by
  intro l
  induction l with
  | nil => intro _; rfl
  | cons x xs ih =>
    intro h
    have hx : (f x).isSome := h x (List.mem_cons_self x xs)
    obtain ⟨b, hb⟩ := Option.isSome_iff_exists.mp hx
    rw [List.filterMap_cons, hb]
    simp only [List.length_cons]
    rw [ih (fun a ha => h a (List.mem_cons_of_mem x ha))]

theorem length_filterMap_lt_of_exists_none {α β : Type} (f : α → Option β) :
    ∀ l : List α, (∃ a ∈ l, ¬ (f a).isSome) → (l.filterMap f).length < l.length := by
  intro l
  induction l with
  | nil => rintro ⟨a, ha, _⟩; exact absurd ha (List.not_mem_nil a)
  | cons x xs ih =>
    rintro ⟨a, ha, hna⟩
    rw [List.filterMap_cons]
    cases hfx : f x with
    | none =>
      calc (xs.filterMap f).length ≤ xs.length := List.length_filterMap_le f xs
        _ < (x :: xs).length := by simp [List.length_cons, Nat.lt_succ_self]
    | some b =>
      rcases List.mem_cons.mp ha with rfl | hmem
      · exact absurd (by rw [hfx]; rfl) hna
      · simpa [List.length_cons, Nat.succ_lt_succ_iff] using ih ⟨a, hmem, hna⟩

theorem filterMap_const_none {α β : Type} :
    ∀ l : List α, l.filterMap (fun _ => (none : Option β)) = [] := by
  intro l
  induction l with
  | nil => rfl
  | cons x xs ih => simp [List.filterMap_cons, ih]

theorem string_append_eq_empty {s t : String} (h : s ++ t = "") :
    s = "" ∧ t = "" := by
  have hd := congrArg String.data h
  rw [String.data_append] at hd
  have hnil := List.append_eq_nil.mp hd
  exact ⟨String.ext hnil.1, String.ext hnil.2⟩

/-! ## Claim theorems -/

/-- C1: for every recorded action log of length N and every framework/language
combination, generation emits exactly N action-statements when every action
kind in the log has a template, fewer when some kinds lack one (silently
skipped), and never more than N; the generated text embeds exactly the joined
emitted statements. -/
theorem claim1_statement_count (fw : Framework) (lang : Language) (name : String)
    (acts : List RecordedAction) :
    (emitted fw lang acts).length ≤ acts.length
    ∧ ((∀ a ∈ acts, hasTemplate fw lang a) →
        (emitted fw lang acts).length = acts.length)
    ∧ ((∃ a ∈ acts, ¬ hasTemplate fw lang a) →
        (emitted fw lang acts).length < acts.length)
    ∧ (∃ pre post, genCode fw lang name acts =
        (pre ++ String.join (emitted fw lang acts)) ++ post) := by
  refine ⟨List.length_filterMap_le _ acts,
    length_filterMap_of_forall_isSome _ acts,
    length_filterMap_lt_of_exists_none _ acts, ?_⟩
  cases fw <;> cases lang <;>
    first
      | exact ⟨_, _, rfl⟩
      | · refine ⟨"", "", ?_⟩
          show "" = ("" ++ String.join (emitted _ _ acts)) ++ ""
          rw [show emitted Framework.selenium Language.typescript acts = [] from
                filterMap_const_none acts]
          rfl
      | · refine ⟨"", "", ?_⟩
          show "" = ("" ++ String.join (emitted _ _ acts)) ++ ""
          rw [show emitted Framework.selenium Language.javascript acts = [] from
                filterMap_const_none acts]
          rfl

/-- Closed instance of C1: on the two-action log `[aNav, aClick]` every kind
has a Playwright template so exactly 2 statements are emitted, while on
`[aCheck]` the Puppeteer table has no template and fewer (0 < 1) statements
are emitted. -/
theorem claim1_statement_count_witness :
    (∀ a ∈ [aNav, aClick], hasTemplate .playwright .typescript a)
    ∧ (emitted .playwright .typescript [aNav, aClick]).length = 2
    ∧ (∃ a ∈ [aCheck], ¬ hasTemplate .puppeteer .javascript a)
    ∧ (emitted .puppeteer .javascript [aCheck]).length < 1 :=
  ⟨by decide,
   (claim1_statement_count .playwright .typescript "s" [aNav, aClick]).2.1 (by decide),
   by decide,
   (claim1_statement_count .puppeteer .javascript "s" [aCheck]).2.2.1 (by decide)⟩

/-- C4: a generate request on an empty log returns the explanatory
"no actions recorded" message in a success-shaped (non-error) response and
hands nothing to the artifact writer. -/
theorem claim4_empty_log_no_write (isRec : Bool) (name : String) (fw : Framework)
    (lang : Language) (fileName cwd : String) :
    generateTest ⟨[], isRec, name⟩ fw lang fileName cwd =
      { text := "No actions recorded. Start recording with playwright_record_start first.",
        isError := false, written := none } := rfl

/-- C5: starting a recording with a non-empty name sets the active flag,
stores the name and replaces the log with the empty sequence, for every prior
state; an action recorded between two consecutive starts is absent from the
log after the second start. -/
theorem claim5_start_resets (st : SessionState) (name : String) (_h : name ≠ "") :
    (recordStart st name).1.isRecording = true
    ∧ (recordStart st name).1.recordingName = name
    ∧ (recordStart st name).1.recordedActions = []
    ∧ ∀ (a : ActionInput) (t : Nat) (name2 : String), name2 ≠ "" →
        (recordStart (recordAction (recordStart st name).1 a t) name2).1.recordedActions
          = [] :=
  ⟨rfl, rfl, rfl, fun _ _ _ _ => rfl⟩

/-- Closed instance of C5 at the scenario's session names. -/
theorem claim5_start_resets_witness :
    ("s1" : String) ≠ "" ∧ ("s2" : String) ≠ ""
    ∧ (recordStart ⟨[aCheck], false, "old"⟩ "s1").1.recordedActions = []
    ∧ (recordStart
        (recordAction (recordStart ⟨[aCheck], false, "old"⟩ "s1").1 iClick 7)
        "s2").1.recordedActions = [] :=
  ⟨by decide, by decide,
   (claim5_start_resets ⟨[aCheck], false, "old"⟩ "s1" (by decide)).2.2.1,
   (claim5_start_resets ⟨[aCheck], false, "old"⟩ "s1" (by decide)).2.2.2 iClick 7 "s2"
     (by decide)⟩

/-- C6: recording while inactive leaves the whole session state unchanged,
and recording while active appends exactly one entry carrying the fresh
timestamp, leaving the other fields unchanged. -/
theorem claim6_record_noop_or_append (st : SessionState) (a : ActionInput) (t : Nat) :
    (st.isRecording = false → recordAction st a t = st)
    ∧ (st.isRecording = true → recordAction st a t =
        { st with recordedActions := st.recordedActions ++ [a.withTimestamp t] }) := by
  constructor
  · intro h; simp [recordAction, h]
  · intro h; simp [recordAction, h]

/-- Closed instance of C6: a no-op on an inactive state and an append with
the fresh timestamp on an active one. -/
theorem claim6_record_noop_or_append_witness :
    ((⟨[aNav], false, "s"⟩ : SessionState).isRecording = false)
    ∧ recordAction ⟨[aNav], false, "s"⟩ iClick 9 = ⟨[aNav], false, "s"⟩
    ∧ ((⟨[aNav], true, "s"⟩ : SessionState).isRecording = true)
    ∧ recordAction ⟨[aNav], true, "s"⟩ iClick 9 =
        ⟨[aNav] ++ [iClick.withTimestamp 9], true, "s"⟩ :=
  ⟨by decide,
   (claim6_record_noop_or_append ⟨[aNav], false, "s"⟩ iClick 9).1 (by decide),
   by decide,
   (claim6_record_noop_or_append ⟨[aNav], true, "s"⟩ iClick 9).2 (by decide)⟩

/-- C7: stopping a recording clears only the active flag, retaining the log
and the session name; it is idempotent, and a generate request behaves the
same before and after the stop. -/
theorem claim7_stop_retains_log (st : SessionState) :
    (recordStop st).1.isRecording = false
    ∧ (recordStop st).1.recordedActions = st.recordedActions
    ∧ (recordStop st).1.recordingName = st.recordingName
    ∧ recordStop (recordStop st).1 = recordStop st
    ∧ ∀ (fw : Framework) (lang : Language) (fileName cwd : String),
        generateTest (recordStop st).1 fw lang fileName cwd =
          generateTest st fw lang fileName cwd :=
  ⟨rfl, rfl, rfl, rfl, fun _ _ _ _ => rfl⟩

/-- C10: with language python, the generate handler renders the puppeteer
framework through the same Selenium strategy as the selenium framework: the
generated text, and the artifact actually written, coincide. -/
theorem claim10_python_puppeteer_is_selenium :
    (∀ (name : String) (acts : List RecordedAction),
        generatePythonTest name acts .puppeteer = generatePythonTest name acts .selenium)
    ∧ ∀ (st : SessionState) (fileName cwd : String),
        (generateTest st .puppeteer .python fileName cwd).written =
          (generateTest st .selenium .python fileName cwd).written := by
  refine ⟨fun _ _ => rfl, fun st fileName cwd => ?_⟩
  by_cases h : st.recordedActions.length = 0 <;>
    simp [generateTest, h, genCode, generatePythonTest]

/-- C2: action-statements are emitted in exactly the log's insertion order
(generation distributes over log concatenation, so nothing is reordered or
deduplicated), and the round-trip scenario start("s1"), record(navigate),
record(click), stop, generate(playwright, typescript, "out") yields a file
whose content has the navigation statement for "https://a.test" strictly
before the click statement for "#go", with the response reporting the file
path written. -/
theorem claim2_generation_order :
    (∀ (fw : Framework) (lang : Language) (l1 l2 : List RecordedAction),
        emitted fw lang (l1 ++ l2) = emitted fw lang l1 ++ emitted fw lang l2)
    ∧ ∀ (st0 : SessionState) (t1 t2 : Nat) (cwd : String),
        let st := (recordStop (recordAction
            (recordAction (recordStart st0 "s1").1 iNav t1) iClick t2)).1
        let res := generateTest st .playwright .typescript "out" cwd
        (∃ pre mid post,
          res.written = some (cwd ++ "/generated-tests/" ++ "out",
            (((pre ++ ("  await page.goto(" ++ sq ++ "https://a.test" ++ sq ++ ");\n"))
                ++ mid)
              ++ ("  await page.click(" ++ sq ++ "#go" ++ sq ++ ");\n")) ++ post))
        ∧ (∃ m, res.text = "Test generated successfully!\nFile: " ++
            ((cwd ++ "/generated-tests/" ++ "out") ++ m)) := by
  constructor
  · intro fw lang l1 l2
    simp [emitted, List.filterMap_append]
  · intro st0 t1 t2 cwd
    refine ⟨⟨"import \x7b test, expect \x7d from " ++ sq ++ "@playwright/test" ++ sq ++
      ";\n\n" ++ ("test(" ++ sq ++ "s1" ++ sq ++ ", async (\x7b page \x7d) => \x7b\n"),
      "", "\x7d);\n", rfl⟩, ⟨_, rfl⟩⟩

/-- C3 counterexample: with the non-empty log `[aNav]`, the selenium
framework with language typescript produces the empty string, which admits no
decomposition into non-empty setup boilerplate, entry point, statements and
teardown — refuting the claim that all nine framework/language combinations
produce such structured text. -/
theorem claim3_counterexample :
    ([aNav] ≠ ([] : List RecordedAction))
    ∧ genCode .selenium .typescript "s1" [aNav] = ""
    ∧ ∀ setup entry stmts close : String,
        genCode .selenium .typescript "s1" [aNav] = ((setup ++ entry) ++ stmts) ++ close →
        setup = "" ∧ entry = "" ∧ stmts = "" ∧ close = "" := by
  refine ⟨by decide, rfl, ?_⟩
  intro setup entry stmts close h
  rw [show genCode .selenium .typescript "s1" [aNav] = "" from rfl] at h
  have h1 := string_append_eq_empty h.symm
  have h2 := string_append_eq_empty h1.1
  have h3 := string_append_eq_empty h2.1
  exact ⟨h3.1, h3.2, h2.2, h1.2⟩

/-- C3 amended: the generator accepts all nine framework/language
combinations; seven of them produce setup boilerplate, an entry point
(named from the session name — verbatim with default "recorded test" for the
Playwright typescript/javascript tests, sanitised with default "recorded" for
the Python paths, and an anonymous async IIFE for Puppeteer), the per-action
statements in log order, and closing/teardown boilerplate; the selenium
framework with typescript or javascript instead produces the empty string. -/
theorem claim3_amended (name : String) (acts : List RecordedAction) :
    (genCode .playwright .typescript name acts =
      (("import \x7b test, expect \x7d from " ++ sq ++ "@playwright/test" ++ sq ++ ";\n\n" ++
          ("test(" ++ sq ++ (if name = "" then "recorded test" else name) ++ sq ++
            ", async (\x7b page \x7d) => \x7b\n"))
        ++ String.join (emitted .playwright .typescript acts)) ++ "\x7d);\n")
    ∧ (genCode .playwright .javascript name acts =
      (("const \x7b test, expect \x7d = require(" ++ sq ++ "@playwright/test" ++ sq ++ ");\n\n" ++
          ("test(" ++ sq ++ (if name = "" then "recorded test" else name) ++ sq ++
            ", async (\x7b page \x7d) => \x7b\n"))
        ++ String.join (emitted .playwright .javascript acts)) ++ "\x7d);\n")
    ∧ (genCode .puppeteer .typescript name acts =
      ((("import puppeteer from " ++ sq ++ "puppeteer" ++ sq ++ ";\n\n")
          ++ "(async () => \x7b\n  const browser = await puppeteer.launch();\n  const page = await browser.newPage();\n\n"
        ++ String.join (emitted .puppeteer .typescript acts))
        ++ "\n  await browser.close();\n\x7d)();\n"))
    ∧ (genCode .puppeteer .javascript name acts =
      ((("const puppeteer = require(" ++ sq ++ "puppeteer" ++ sq ++ ");\n\n")
          ++ "(async () => \x7b\n  const browser = await puppeteer.launch();\n  const page = await browser.newPage();\n\n"
        ++ String.join (emitted .puppeteer .javascript acts))
        ++ "\n  await browser.close();\n\x7d)();\n"))
    ∧ (genCode .playwright .python name acts =
      ((("from playwright.sync_api import sync_playwright\n\n"
            ++ ("def test_" ++ pyTestName name ++ "():\n"))
          ++ "    with sync_playwright() as p:\n        browser = p.chromium.launch()\n        page = browser.new_page()\n\n"
        ++ String.join (emitted .playwright .python acts))
        ++ "\n        browser.close()\n"))
    ∧ (genCode .puppeteer .python name acts =
      ((("from selenium import webdriver\nfrom selenium.webdriver.common.by import By\nfrom selenium.webdriver.support.ui import WebDriverWait\nfrom selenium.webdriver.support import expected_conditions as EC\n\n"
            ++ ("def test_" ++ pyTestName name ++ "():\n"))
          ++ "    driver = webdriver.Chrome()\n\n"
        ++ String.join (emitted .puppeteer .python acts))
        ++ "\n    driver.quit()\n"))
    ∧ (genCode .selenium .python name acts =
      ((("from selenium import webdriver\nfrom selenium.webdriver.common.by import By\nfrom selenium.webdriver.support.ui import WebDriverWait\nfrom selenium.webdriver.support import expected_conditions as EC\n\n"
            ++ ("def test_" ++ pyTestName name ++ "():\n"))
          ++ "    driver = webdriver.Chrome()\n\n"
        ++ String.join (emitted .selenium .python acts))
        ++ "\n    driver.quit()\n"))
    ∧ genCode .selenium .typescript name acts = ""
    ∧ genCode .selenium .javascript name acts = "" :=
  ⟨rfl, rfl, rfl, rfl, rfl, rfl, rfl, rfl, rfl⟩

/-- C9: on a non-empty log, a generate request for framework selenium with
language typescript or javascript produces the empty string as the test code,
still hands that empty content to the artifact writer at the usual path, and
reports success with the action count — no error is surfaced. -/
theorem claim9_selenium_script_empty_file (a : RecordedAction)
    (rest : List RecordedAction) (isRec : Bool) (name fileName cwd : String) :
    (generateTest ⟨a :: rest, isRec, name⟩ .selenium .typescript fileName cwd =
      { text := "Test generated successfully!\nFile: " ++
          ((cwd ++ "/generated-tests/" ++ fileName) ++
            ("\nFramework: " ++ ("selenium" ++ ("\nLanguage: " ++ ("typescript" ++
              ("\nActions: " ++ (toString (a :: rest).length ++ ("\n\n" ++ "")))))))),
        isError := false,
        written := some (cwd ++ "/generated-tests/" ++ fileName, "") })
    ∧ (generateTest ⟨a :: rest, isRec, name⟩ .selenium .javascript fileName cwd =
      { text := "Test generated successfully!\nFile: " ++
          ((cwd ++ "/generated-tests/" ++ fileName) ++
            ("\nFramework: " ++ ("selenium" ++ ("\nLanguage: " ++ ("javascript" ++
              ("\nActions: " ++ (toString (a :: rest).length ++ ("\n\n" ++ "")))))))),
        isError := false,
        written := some (cwd ++ "/generated-tests/" ++ fileName, "") }) :=
  ⟨rfl, rfl⟩

theorem pwStmt_quoted (a : RecordedAction) (out : String) (h : pwStmt a = some out) :
    ∀ f ∈ pwFields a, ∃ pre post, out = pre ++ (sq ++ (f ++ (sq ++ post))) := by
  intro f hf
  unfold pwStmt at h
  split at h
  next heq =>
    injection h with hout
    subst hout
    simp [pwFields, heq] at hf
    subst hf
    exact ⟨"  await page.goto(", ");\n", by simp [String.append_assoc]⟩
  next heq =>
    injection h with hout
    subst hout
    simp [pwFields, heq] at hf
    subst hf
    exact ⟨"  await page.click(", ");\n", by simp [String.append_assoc]⟩
  next heq =>
    injection h with hout
    subst hout
    simp [pwFields, heq] at hf
    rcases hf with rfl | rfl
    · exact ⟨"  await page.fill(", ", " ++ sq ++ fld a.value ++ sq ++ ");\n",
        by simp [String.append_assoc]⟩
    · exact ⟨"  await page.fill(" ++ sq ++ fld a.selector ++ sq ++ ", ", ");\n",
        by simp [String.append_assoc]⟩
  next heq =>
    injection h with hout
    subst hout
    simp [pwFields, heq] at hf
    rcases hf with rfl | rfl
    · exact ⟨"  await page.type(", ", " ++ sq ++ fld a.value ++ sq ++ ");\n",
        by simp [String.append_assoc]⟩
    · exact ⟨"  await page.type(" ++ sq ++ fld a.selector ++ sq ++ ", ", ");\n",
        by simp [String.append_assoc]⟩
  next heq =>
    injection h with hout
    subst hout
    simp [pwFields, heq] at hf
    subst hf
    exact ⟨"  await page.keyboard.press(", ");\n", by simp [String.append_assoc]⟩
  next heq =>
    injection h with hout
    subst hout
    simp [pwFields, heq] at hf
    rcases hf with rfl | rfl
    · exact ⟨"  await page.selectOption(", ", " ++ sq ++ fld a.value ++ sq ++ ");\n",
        by simp [String.append_assoc]⟩
    · exact ⟨"  await page.selectOption(" ++ sq ++ fld a.selector ++ sq ++ ", ", ");\n",
        by simp [String.append_assoc]⟩
  next heq =>
    injection h with hout
    subst hout
    simp [pwFields, heq] at hf
    subst hf
    exact ⟨"  await page.hover(", ");\n", by simp [String.append_assoc]⟩
  next heq =>
    injection h with hout
    subst hout
    simp [pwFields, heq] at hf
    subst hf
    exact ⟨"  await page.check(", ");\n", by simp [String.append_assoc]⟩
  next heq =>
    injection h with hout
    subst hout
    simp [pwFields, heq] at hf
    subst hf
    exact ⟨"  await page.uncheck(", ");\n", by simp [String.append_assoc]⟩
  next heq =>
    injection h with hout
    subst hout
    simp [pwFields, heq] at hf
    subst hf
    exact ⟨"  await page.waitForSelector(", ");\n", by simp [String.append_assoc]⟩
  next heq =>
    injection h with hout
    subst hout
    simp [pwFields, heq] at hf
    subst hf
    exact ⟨"  await page.screenshot(\x7b path: ", " \x7d);\n",
      by simp [String.append_assoc]⟩
  next => exact Option.noConfusion h

theorem pptStmt_quoted (a : RecordedAction) (out : String) (h : pptStmt a = some out) :
    ∀ f ∈ pptFields a, ∃ pre post, out = pre ++ (sq ++ (f ++ (sq ++ post))) := by
  intro f hf
  unfold pptStmt at h
  split at h
  next heq =>
    injection h with hout
    subst hout
    simp [pptFields, heq] at hf
    subst hf
    exact ⟨"  await page.goto(", ");\n", by simp [String.append_assoc]⟩
  next heq =>
    injection h with hout
    subst hout
    simp [pptFields, heq] at hf
    subst hf
    exact ⟨"  await page.click(", ");\n", by simp [String.append_assoc]⟩
  next heq =>
    injection h with hout
    subst hout
    simp [pptFields, heq] at hf
    rcases hf with rfl | rfl
    · exact ⟨"  await page.type(", ", " ++ sq ++ fld a.value ++ sq ++ ");\n",
        by simp [String.append_assoc]⟩
    · exact ⟨"  await page.type(" ++ sq ++ fld a.selector ++ sq ++ ", ", ");\n",
        by simp [String.append_assoc]⟩
  next heq =>
    injection h with hout
    subst hout
    simp [pptFields, heq] at hf
    rcases hf with rfl | rfl
    · exact ⟨"  await page.type(", ", " ++ sq ++ fld a.value ++ sq ++ ");\n",
        by simp [String.append_assoc]⟩
    · exact ⟨"  await page.type(" ++ sq ++ fld a.selector ++ sq ++ ", ", ");\n",
        by simp [String.append_assoc]⟩
  next heq =>
    injection h with hout
    subst hout
    simp [pptFields, heq] at hf
    subst hf
    exact ⟨"  await page.keyboard.press(", ");\n", by simp [String.append_assoc]⟩
  next heq =>
    injection h with hout
    subst hout
    simp [pptFields, heq] at hf
    rcases hf with rfl | rfl
    · exact ⟨"  await page.select(", ", " ++ sq ++ fld a.value ++ sq ++ ");\n",
        by simp [String.append_assoc]⟩
    · exact ⟨"  await page.select(" ++ sq ++ fld a.selector ++ sq ++ ", ", ");\n",
        by simp [String.append_assoc]⟩
  next heq =>
    injection h with hout
    subst hout
    simp [pptFields, heq] at hf
    subst hf
    exact ⟨"  await page.hover(", ");\n", by simp [String.append_assoc]⟩
  next heq =>
    injection h with hout
    subst hout
    simp [pptFields, heq] at hf
    subst hf
    exact ⟨"  await page.waitForSelector(", ");\n", by simp [String.append_assoc]⟩
  next heq =>
    injection h with hout
    subst hout
    simp [pptFields, heq] at hf
    subst hf
    exact ⟨"  await page.screenshot(\x7b path: ", " \x7d);\n",
      by simp [String.append_assoc]⟩
  next => exact Option.noConfusion h

theorem pyPwStmt_quoted (a : RecordedAction) (out : String) (h : pyPwStmt a = some out) :
    ∀ f ∈ pyPwFields a, ∃ pre post, out = pre ++ (sq ++ (f ++ (sq ++ post))) := by
  intro f hf
  unfold pyPwStmt at h
  split at h
  next heq =>
    injection h with hout
    subst hout
    simp [pyPwFields, heq] at hf
    subst hf
    exact ⟨"        page.goto(", ")\n", by simp [String.append_assoc]⟩
  next heq =>
    injection h with hout
    subst hout
    simp [pyPwFields, heq] at hf
    subst hf
    exact ⟨"        page.click(", ")\n", by simp [String.append_assoc]⟩
  next heq =>
    injection h with hout
    subst hout
    simp [pyPwFields, heq] at hf
    rcases hf with rfl | rfl
    · exact ⟨"        page.fill(", ", " ++ sq ++ fld a.value ++ sq ++ ")\n",
        by simp [String.append_assoc]⟩
    · exact ⟨"        page.fill(" ++ sq ++ fld a.selector ++ sq ++ ", ", ")\n",
        by simp [String.append_assoc]⟩
  next heq =>
    injection h with hout
    subst hout
    simp [pyPwFields, heq] at hf
    rcases hf with rfl | rfl
    · exact ⟨"        page.type(", ", " ++ sq ++ fld a.value ++ sq ++ ")\n",
        by simp [String.append_assoc]⟩
    · exact ⟨"        page.type(" ++ sq ++ fld a.selector ++ sq ++ ", ", ")\n",
        by simp [String.append_assoc]⟩
  next heq =>
    injection h with hout
    subst hout
    simp [pyPwFields, heq] at hf
    subst hf
    exact ⟨"        page.keyboard.press(", ")\n", by simp [String.append_assoc]⟩
  next heq =>
    injection h with hout
    subst hout
    simp [pyPwFields, heq] at hf
    rcases hf with rfl | rfl
    · exact ⟨"        page.select_option(", ", " ++ sq ++ fld a.value ++ sq ++ ")\n",
        by simp [String.append_assoc]⟩
    · exact ⟨"        page.select_option(" ++ sq ++ fld a.selector ++ sq ++ ", ", ")\n",
        by simp [String.append_assoc]⟩
  next heq =>
    injection h with hout
    subst hout
    simp [pyPwFields, heq] at hf
    subst hf
    exact ⟨"        page.hover(", ")\n", by simp [String.append_assoc]⟩
  next heq =>
    injection h with hout
    subst hout
    simp [pyPwFields, heq] at hf
    subst hf
    exact ⟨"        page.wait_for_selector(", ")\n", by simp [String.append_assoc]⟩
  next heq =>
    injection h with hout
    subst hout
    simp [pyPwFields, heq] at hf
    subst hf
    exact ⟨"        page.screenshot(path=", ")\n", by simp [String.append_assoc]⟩
  next => exact Option.noConfusion h

theorem pySelStmt_quoted (a : RecordedAction) (out : String) (h : pySelStmt a = some out) :
    ∀ f ∈ pySelFields a, ∃ pre post, out = pre ++ (sq ++ (f ++ (sq ++ post))) := by
  intro f hf
  unfold pySelStmt at h
  split at h
  next heq =>
    injection h with hout
    subst hout
    simp [pySelFields, heq] at hf
    subst hf
    exact ⟨"    driver.get(", ")\n", by simp [String.append_assoc]⟩
  next heq =>
    injection h with hout
    subst hout
    simp [pySelFields, heq] at hf
    subst hf
    exact ⟨"    driver.find_element(By.CSS_SELECTOR, ", ").click()\n",
      by simp [String.append_assoc]⟩
  next heq =>
    injection h with hout
    subst hout
    simp [pySelFields, heq] at hf
    rcases hf with rfl | rfl
    · exact ⟨"    driver.find_element(By.CSS_SELECTOR, ",
        ").send_keys(" ++ sq ++ fld a.value ++ sq ++ ")\n",
        by simp [String.append_assoc]⟩
    · exact ⟨"    driver.find_element(By.CSS_SELECTOR, " ++ sq ++ fld a.selector ++ sq
          ++ ").send_keys(", ")\n", by simp [String.append_assoc]⟩
  next heq =>
    injection h with hout
    subst hout
    simp [pySelFields, heq] at hf
    rcases hf with rfl | rfl
    · exact ⟨"    driver.find_element(By.CSS_SELECTOR, ",
        ").send_keys(" ++ sq ++ fld a.value ++ sq ++ ")\n",
        by simp [String.append_assoc]⟩
    · exact ⟨"    driver.find_element(By.CSS_SELECTOR, " ++ sq ++ fld a.selector ++ sq
          ++ ").send_keys(", ")\n", by simp [String.append_assoc]⟩
  next heq =>
    injection h with hout
    subst hout
    simp [pySelFields, heq] at hf
    subst hf
    exact ⟨"    WebDriverWait(driver, 10).until(EC.presence_of_element_located((By.CSS_SELECTOR, ",
      ")))\n", by simp [String.append_assoc]⟩
  next heq =>
    injection h with hout
    subst hout
    simp [pySelFields, heq] at hf
    subst hf
    exact ⟨"    driver.save_screenshot(", ")\n", by simp [String.append_assoc]⟩
  next => exact Option.noConfusion h

/-- C8: whenever the chosen framework/language pair has a statement template
for the action's kind, every captured selector/value/url/key string the
template uses is reproduced verbatim inside a single-quoted literal of the
emitted statement — the surrounding text does not depend on the string's
content, so a value containing a quote character appears unmodified, with no
escaping. -/
theorem claim8_verbatim_single_quoted (fw : Framework) (lang : Language)
    (a : RecordedAction) (out : String) (h : stmtOf fw lang a = some out) :
    ∀ f ∈ usedFields fw lang a,
      ∃ pre post, out = pre ++ (sq ++ (f ++ (sq ++ post))) := by
  cases fw <;> cases lang
  · exact pwStmt_quoted a out h
  · exact pwStmt_quoted a out h
  · exact pyPwStmt_quoted a out h
  · exact pptStmt_quoted a out h
  · exact pptStmt_quoted a out h
  · exact pySelStmt_quoted a out h
  · exact Option.noConfusion h
  · exact Option.noConfusion h
  · exact pySelStmt_quoted a out h

/-- Closed instance of C8: the click template interpolates the selector
`a'b` — which itself contains a quote character — verbatim between single
quotes. -/
theorem claim8_verbatim_single_quoted_witness :
    stmtOf .playwright .typescript aQuote =
      some ("  await page.click(" ++ sq ++ fld aQuote.selector ++ sq ++ ");\n")
    ∧ "a\x27b" ∈ usedFields .playwright .typescript aQuote
    ∧ ∃ pre post, ("  await page.click(" ++ sq ++ fld aQuote.selector ++ sq ++ ");\n")
        = pre ++ (sq ++ ("a\x27b" ++ (sq ++ post))) :=
  ⟨rfl, by decide,
   claim8_verbatim_single_quoted .playwright .typescript aQuote _ rfl "a\x27b" (by decide)⟩

end PlaywrightMcp
